import Mathlib

/-!
Verification of the SnackTracker order lifecycle and role-scoped access model.

The definitions below are a shallow embedding of the server code:
`shared/schema.ts` (data model), the `MemStorage` class (in-memory storage
layer backed by insertion-ordered maps with auto-increment counters, embedded
here as lists in insertion order) and the Express route handlers in the
routes module (order placement, completion, cancellation, reorder, rating,
and the admin/staff order-status and canteen-scoped routes).

JavaScript conventions are embedded explicitly: `Map` values iterate in
insertion order (lists), `Map.set` on an existing key replaces in place
(`setOrderEntry`), nullable ids are `Option Nat` with JS falsiness
(`natIdIsFalsy`, `0` and `null` are both falsy), thrown storage errors
surface as `Except.error` and become HTTP 500 responses, and `new Date()`
is an explicit `now : Nat` argument.
-/

namespace SnackTracker

/-- Order status enum from `shared/schema.ts` (`orderStatusEnum`). -/
inductive OrderStatus where
  | received
  | preparing
  | ready
  | completed
  | cancelled
deriving DecidableEq, Repr

/-- String representation of a status, as stored in the TS layer. -/
def statusString : OrderStatus → String
  | .received => "received"
  | .preparing => "preparing"
  | .ready => "ready"
  | .completed => "completed"
  | .cancelled => "cancelled"

/-- Parse a client-submitted status string; `none` exactly when the string is
not one of the five enum values (the `includes` checks in the routes). -/
def statusOfString : String → Option OrderStatus
  | "received" => some OrderStatus.received
  | "preparing" => some OrderStatus.preparing
  | "ready" => some OrderStatus.ready
  | "completed" => some OrderStatus.completed
  | "cancelled" => some OrderStatus.cancelled
  | _ => none

/-- User role enum from `shared/schema.ts` (`userRoleEnum`). -/
inductive Role where
  | customer
  | staff
  | admin
deriving DecidableEq, Repr

/-- The fields of a `User` row inspected by the route handlers: identity,
role, the legacy `isAdmin` flag, and the nullable staff canteen binding. -/
structure User where
  id : Nat
  role : Role
  isAdmin : Bool
  canteenId : Option Nat
deriving DecidableEq, Repr

/-- A `MenuItem` row (`menu_items` table): cosmetic text columns aside. -/
structure MenuItem where
  id : Nat
  name : String
  price : Int
  category : String
  isAvailable : Bool
  canteenId : Nat
deriving DecidableEq, Repr

/-- An `Order` row (`orders` table). `createdAt` is the timestamp. -/
structure Order where
  id : Nat
  userId : Nat
  status : OrderStatus
  totalAmount : Int
  createdAt : Nat
deriving DecidableEq, Repr

/-- An `OrderItem` row (`order_items` table); `price` is the snapshot price. -/
structure OrderItem where
  id : Nat
  orderId : Nat
  menuItemId : Nat
  quantity : Int
  price : Int
deriving DecidableEq, Repr

/-- An `OrderRating` row (`order_ratings` table). -/
structure OrderRating where
  id : Nat
  orderId : Nat
  userId : Nat
  rating : Int
  comment : Option String
  createdAt : Nat
deriving DecidableEq, Repr

/-- An `InventoryItem` row (`inventory_items` table). -/
structure InventoryItem where
  id : Nat
  name : String
  quantity : Int
  unit : String
  costPerUnit : Int
  canteenId : Nat
  reorderLevel : Int
  lastUpdated : Nat
  updatedBy : Nat
deriving DecidableEq, Repr

/-- An `Expense` row (`expenses` table). -/
structure Expense where
  id : Nat
  description : String
  amount : Int
  canteenId : Nat
  date : Nat
  category : String
  recordedBy : Nat
deriving DecidableEq, Repr

/-- A `SalesReport` row (`sales_reports` table). -/
structure SalesReport where
  id : Nat
  canteenId : Nat
  date : Nat
  totalSales : Int
  totalOrders : Int
  cashSales : Int
  onlineSales : Int
  generatedBy : Nat
deriving DecidableEq, Repr

/-- The mutable state of `MemStorage`: one insertion-ordered list per entity
`Map`, plus the auto-increment counters. -/
structure MemStorage where
  menuItems : List MenuItem
  orders : List Order
  orderItems : List OrderItem
  inventoryItems : List InventoryItem
  expenses : List Expense
  salesReports : List SalesReport
  orderRatings : List OrderRating
  menuItemIdCounter : Nat
  orderIdCounter : Nat
  orderItemIdCounter : Nat
  inventoryIdCounter : Nat
  expenseIdCounter : Nat
  salesReportIdCounter : Nat
  orderRatingIdCounter : Nat
deriving DecidableEq, Repr

/-- JS falsiness of a nullable numeric id (`if (!canteenId)`): true for
`null` and for `0`. -/
def natIdIsFalsy : Option Nat → Bool
  | none => true
  | some n => n == 0

/-- JS `x || null` on an optional string: the empty string collapses to
`null`. -/
def strOrNull : Option String → Option String
  | none => none
  | some s => if s == "" then none else some s

/-- `Map.set` on an existing key: replace the entry with that id in place. -/
def setOrderEntry (orders : List Order) (id : Nat) (o : Order) : List Order :=
  orders.map (fun x => if x.id == id then o else x)

/-- `MemStorage.getMenuItem`. -/
def MemStorage.getMenuItem (st : MemStorage) (id : Nat) : Option MenuItem :=
  st.menuItems.find? (fun m => m.id == id)

/-- `MemStorage.getMenuItemsByCanteen`. -/
def MemStorage.getMenuItemsByCanteen (st : MemStorage) (canteenId : Nat) : List MenuItem :=
  st.menuItems.filter (fun m => m.canteenId == canteenId)

/-- `MemStorage.getOrder`. -/
def MemStorage.getOrder (st : MemStorage) (id : Nat) : Option Order :=
  st.orders.find? (fun o => o.id == id)

/-- `MemStorage.getOrderItems`: the order items of one order. -/
def MemStorage.getOrderItems (st : MemStorage) (orderId : Nat) : List OrderItem :=
  st.orderItems.filter (fun it => it.orderId == orderId)

/-- `MemStorage.getOrderRating`: first rating whose `orderId` matches. -/
def MemStorage.getOrderRating (st : MemStorage) (orderId : Nat) : Option OrderRating :=
  st.orderRatings.find? (fun r => r.orderId == orderId)

/-- An order item joined with its menu item (`OrderItem & \x7b menuItem \x7d`). -/
structure OrderItemWithMenuItem where
  item : OrderItem
  menuItem : MenuItem
deriving DecidableEq, Repr

/-- The `OrderWithItems` view from `shared/schema.ts`. -/
structure OrderWithItems where
  order : Order
  items : List OrderItemWithMenuItem
  rating : Option OrderRating
deriving DecidableEq, Repr

/-- The item-joining loop inside `getOrderWithItems`: looking up each item's
menu item, throwing (`Except.error`) when one is missing. -/
def attachMenuItems (st : MemStorage) : List OrderItem → Except String (List OrderItemWithMenuItem)
  | [] => Except.ok []
  | it :: rest =>
    match st.getMenuItem it.menuItemId with
    | none => Except.error "Menu item not found"
    | some m =>
      match attachMenuItems st rest with
      | Except.error e => Except.error e
      | Except.ok tail => Except.ok (⟨it, m⟩ :: tail)

/-- `MemStorage.getOrderWithItems`: `ok none` when the order is absent,
`error` when an item references a missing menu item. -/
def MemStorage.getOrderWithItems (st : MemStorage) (id : Nat) :
    Except String (Option OrderWithItems) :=
  match st.getOrder id with
  | none => Except.ok none
  | some order =>
    match attachMenuItems st (st.getOrderItems id) with
    | Except.error e => Except.error e
    | Except.ok items => Except.ok (some ⟨order, items, st.getOrderRating id⟩)

/-- The order fetch loop of the listing methods (`Promise.all` over
`getOrderWithItems`). -/
def fetchOrdersWithItems (st : MemStorage) : List Order → Except String (List (Option OrderWithItems))
  | [] => Except.ok []
  | o :: rest =>
    match st.getOrderWithItems o.id with
    | Except.error e => Except.error e
    | Except.ok owi =>
      match fetchOrdersWithItems st rest with
      | Except.error e => Except.error e
      | Except.ok tail => Except.ok (owi :: tail)

/-- `MemStorage.getActiveOrderForUser`: first order of the user whose status
is received, preparing or ready. -/
def MemStorage.getActiveOrderForUser (st : MemStorage) (userId : Nat) :
    Except String (Option OrderWithItems) :=
  match st.orders.find? (fun o => o.userId == userId &&
      [OrderStatus.received, OrderStatus.preparing, OrderStatus.ready].contains o.status) with
  | none => Except.ok none
  | some activeOrder => st.getOrderWithItems activeOrder.id

/-- `MemStorage.getOrderHistoryForUser`: the user's completed orders, newest
first, fetched with items and nulls filtered out. -/
def MemStorage.getOrderHistoryForUser (st : MemStorage) (userId : Nat) :
    Except String (List OrderWithItems) :=
  let userOrders := (st.orders.filter (fun o => o.userId == userId &&
      o.status == OrderStatus.completed)).mergeSort
      (fun a b => Nat.ble b.createdAt a.createdAt)
  match fetchOrdersWithItems st userOrders with
  | Except.error e => Except.error e
  | Except.ok owis => Except.ok (owis.filterMap id)

/-- `MemStorage.getActiveOrders`: all active orders, oldest first. -/
def MemStorage.getActiveOrders (st : MemStorage) : Except String (List OrderWithItems) :=
  let activeOrders := (st.orders.filter (fun o =>
      [OrderStatus.received, OrderStatus.preparing, OrderStatus.ready].contains o.status)).mergeSort
      (fun a b => Nat.ble a.createdAt b.createdAt)
  match fetchOrdersWithItems st activeOrders with
  | Except.error e => Except.error e
  | Except.ok owis => Except.ok (owis.filterMap id)

/-- `MemStorage.getActiveOrdersByCanteen`: active orders having at least one
item whose menu item belongs to the canteen. -/
def MemStorage.getActiveOrdersByCanteen (st : MemStorage) (canteenId : Nat) :
    Except String (List OrderWithItems) :=
  match st.getActiveOrders with
  | Except.error e => Except.error e
  | Except.ok owis =>
      Except.ok (owis.filter (fun owi =>
        owi.items.any (fun iwm => iwm.menuItem.canteenId == canteenId)))

/-- `MemStorage.getOrderHistory`: all completed orders, newest first. -/
def MemStorage.getOrderHistory (st : MemStorage) : Except String (List OrderWithItems) :=
  let completedOrders := (st.orders.filter (fun o =>
      o.status == OrderStatus.completed)).mergeSort
      (fun a b => Nat.ble b.createdAt a.createdAt)
  match fetchOrdersWithItems st completedOrders with
  | Except.error e => Except.error e
  | Except.ok owis => Except.ok (owis.filterMap id)

/-- `MemStorage.getOrderHistoryByCanteen`. -/
def MemStorage.getOrderHistoryByCanteen (st : MemStorage) (canteenId : Nat) :
    Except String (List OrderWithItems) :=
  match st.getOrderHistory with
  | Except.error e => Except.error e
  | Except.ok owis =>
      Except.ok (owis.filter (fun owi =>
        owi.items.any (fun iwm => iwm.menuItem.canteenId == canteenId)))

/-- `MemStorage.createOrder`. Both call sites pass status `received`
explicitly, so the `orderData.status || "received"` default is resolved by
the caller here. -/
def MemStorage.createOrder (st : MemStorage) (userId : Nat) (status : OrderStatus)
    (totalAmount : Int) (now : Nat) : Order × MemStorage :=
  let id := st.orderIdCounter
  let order : Order := ⟨id, userId, status, totalAmount, now⟩
  (order, { st with orders := st.orders ++ [order], orderIdCounter := id + 1 })

/-- `MemStorage.createOrderItem`. -/
def MemStorage.createOrderItem (st : MemStorage) (orderId menuItemId : Nat)
    (quantity price : Int) : OrderItem × MemStorage :=
  let id := st.orderItemIdCounter
  let orderItem : OrderItem := ⟨id, orderId, menuItemId, quantity, price⟩
  (orderItem, { st with orderItems := st.orderItems ++ [orderItem],
                        orderItemIdCounter := id + 1 })

/-- `MemStorage.updateOrderStatus`: throws when the order is absent or the
status string is not one of the five enum values; otherwise replaces the
status unconditionally (no transition check). -/
def MemStorage.updateOrderStatus (st : MemStorage) (id : Nat) (statusValue : String) :
    Except String (Order × MemStorage) :=
  match st.getOrder id with
  | none => Except.error "Order not found"
  | some order =>
    match statusOfString statusValue with
    | none => Except.error "Invalid order status"
    | some status =>
      let updatedOrder : Order := { order with status := status }
      Except.ok (updatedOrder,
        { st with orders := setOrderEntry st.orders id updatedOrder })

/-- `MemStorage.createOrderRating`: inserts unconditionally (no uniqueness
check on `orderId`). -/
def MemStorage.createOrderRating (st : MemStorage) (orderId userId : Nat)
    (rating : Int) (comment : Option String) (now : Nat) : OrderRating × MemStorage :=
  let id := st.orderRatingIdCounter
  let r : OrderRating := ⟨id, orderId, userId, rating, strOrNull comment, now⟩
  (r, { st with orderRatings := st.orderRatings ++ [r],
                orderRatingIdCounter := id + 1 })

/-- `MemStorage.getInventoryItem`. -/
def MemStorage.getInventoryItem (st : MemStorage) (id : Nat) : Option InventoryItem :=
  st.inventoryItems.find? (fun it => it.id == id)

/-- `MemStorage.getInventoryItemsByCanteen`. -/
def MemStorage.getInventoryItemsByCanteen (st : MemStorage) (canteenId : Nat) :
    List InventoryItem :=
  st.inventoryItems.filter (fun it => it.canteenId == canteenId)

/-- `MemStorage.getLowStockItems`: canteen items with quantity at or below
the reorder level. -/
def MemStorage.getLowStockItems (st : MemStorage) (canteenId : Nat) : List InventoryItem :=
  st.inventoryItems.filter (fun it =>
    it.canteenId == canteenId && decide (it.quantity ≤ it.reorderLevel))

/-- Request body of a menu-item creation (`insertMenuItemSchema` fields the
staff route forwards; `canteenId` is overwritten by the route). -/
structure MenuItemReq where
  name : String
  price : Int
  category : String
  isAvailable : Option Bool
deriving DecidableEq, Repr

/-- `MemStorage.createMenuItem`: availability defaults to true and a falsy
(zero) canteen id defaults to canteen 1. -/
def MemStorage.createMenuItem (st : MemStorage) (req : MenuItemReq) (canteenId : Nat) :
    MenuItem × MemStorage :=
  let id := st.menuItemIdCounter
  let m : MenuItem := ⟨id, req.name, req.price, req.category,
    req.isAvailable.getD true, if canteenId == 0 then 1 else canteenId⟩
  (m, { st with menuItems := st.menuItems ++ [m], menuItemIdCounter := id + 1 })

/-- Request body of an inventory-item creation. -/
structure InventoryItemReq where
  name : String
  quantity : Option Int
  unit : String
  costPerUnit : Int
  reorderLevel : Option Int
deriving DecidableEq, Repr

/-- `MemStorage.createInventoryItem`: quantity defaults to 0, reorder level
to 10; `lastUpdated` is stamped with the current time. -/
def MemStorage.createInventoryItem (st : MemStorage) (req : InventoryItemReq)
    (canteenId updatedBy now : Nat) : InventoryItem × MemStorage :=
  let id := st.inventoryIdCounter
  let it : InventoryItem := ⟨id, req.name, req.quantity.getD 0, req.unit,
    req.costPerUnit, canteenId, req.reorderLevel.getD 10, now, updatedBy⟩
  (it, { st with inventoryItems := st.inventoryItems ++ [it],
                 inventoryIdCounter := id + 1 })

/-- Partial update payload of the inventory PATCH route
(`Partial<InsertInventoryItem>` spread over the stored record). -/
structure InventoryUpdate where
  name : Option String
  quantity : Option Int
  unit : Option String
  costPerUnit : Option Int
  canteenId : Option Nat
  reorderLevel : Option Int
deriving DecidableEq, Repr

/-- Field-wise record spread `\x7b ...item, ...data \x7d` of a partial update. -/
def applyInventoryUpdate (it : InventoryItem) (d : InventoryUpdate) : InventoryItem :=
  { it with
    name := d.name.getD it.name
    quantity := d.quantity.getD it.quantity
    unit := d.unit.getD it.unit
    costPerUnit := d.costPerUnit.getD it.costPerUnit
    canteenId := d.canteenId.getD it.canteenId
    reorderLevel := d.reorderLevel.getD it.reorderLevel }

/-- `MemStorage.updateInventoryItem`: merge the update, restamp
`lastUpdated` and set `updatedBy`, replacing the entry in place. -/
def MemStorage.updateInventoryItem (st : MemStorage) (id : Nat) (d : InventoryUpdate)
    (updatedBy now : Nat) : Except String (InventoryItem × MemStorage) :=
  match st.getInventoryItem id with
  | none => Except.error "Inventory item not found"
  | some it =>
    let updatedItem : InventoryItem :=
      { applyInventoryUpdate it d with lastUpdated := now, updatedBy := updatedBy }
    Except.ok (updatedItem,
      { st with inventoryItems :=
          st.inventoryItems.map (fun x => if x.id == id then updatedItem else x) })

/-- `MemStorage.getExpensesByCanteen`. -/
def MemStorage.getExpensesByCanteen (st : MemStorage) (canteenId : Nat) : List Expense :=
  st.expenses.filter (fun e => e.canteenId == canteenId)

/-- Request body of an expense creation. -/
structure ExpenseReq where
  description : String
  amount : Int
  date : Option Nat
  category : String
deriving DecidableEq, Repr

/-- `MemStorage.createExpense`: the date defaults to the current time. -/
def MemStorage.createExpense (st : MemStorage) (req : ExpenseReq)
    (canteenId recordedBy now : Nat) : Expense × MemStorage :=
  let id := st.expenseIdCounter
  let e : Expense := ⟨id, req.description, req.amount, canteenId,
    req.date.getD now, req.category, recordedBy⟩
  (e, { st with expenses := st.expenses ++ [e], expenseIdCounter := id + 1 })

/-- `MemStorage.getSalesReportsByCanteen`. -/
def MemStorage.getSalesReportsByCanteen (st : MemStorage) (canteenId : Nat) :
    List SalesReport :=
  st.salesReports.filter (fun r => r.canteenId == canteenId)

/-- Request body of a sales-report creation. -/
structure SalesReportReq where
  date : Option Nat
  totalSales : Int
  totalOrders : Int
  cashSales : Option Int
  onlineSales : Option Int
deriving DecidableEq, Repr

/-- `MemStorage.createSalesReport`: date defaults to now, cash and online
sales to 0. -/
def MemStorage.createSalesReport (st : MemStorage) (req : SalesReportReq)
    (canteenId generatedBy now : Nat) : SalesReport × MemStorage :=
  let id := st.salesReportIdCounter
  let r : SalesReport := ⟨id, canteenId, req.date.getD now, req.totalSales,
    req.totalOrders, req.cashSales.getD 0, req.onlineSales.getD 0, generatedBy⟩
  (r, { st with salesReports := st.salesReports ++ [r],
                salesReportIdCounter := id + 1 })

/-! ## Route handlers

Each handler embeds one Express route for an authenticated actor. The
result pairs the HTTP response with the post-call storage state:
`RouteResult.ok` is the 2xx JSON body, `RouteResult.err code msg` the error
response (exceptions reaching the error middleware appear as code 500). -/

/-- HTTP outcome of a route call. -/
inductive RouteResult (α : Type) where
  | ok : α → RouteResult α
  | err : Nat → String → RouteResult α
deriving DecidableEq, Repr

/-- The `requireRole` middleware check for an authenticated user: the exact
role or admin passes. -/
def requireRolePasses (role : Role) (actor : User) : Bool :=
  actor.role == role || actor.role == Role.admin

/-- One submitted order line (`req.body.items` entry). -/
structure OrderLineReq where
  menuItemId : Nat
  quantity : Int
  price : Int
deriving DecidableEq, Repr

/-- The order-item insertion loop shared by `POST /api/orders` and the
reorder route: one `createOrderItem` per line. -/
def addOrderItemsLoop (st : MemStorage) (orderId : Nat) : List OrderLineReq → MemStorage
  | [] => st
  | line :: rest =>
      addOrderItemsLoop
        (st.createOrderItem orderId line.menuItemId line.quantity line.price).2
        orderId rest

/-- `POST /api/orders` (place an order) for an authenticated actor: creates
the order in `received` state, inserts one order item per submitted line
(no validation of the lines), then reads the full order back. -/
def placeOrderRoute (st : MemStorage) (actor : User) (totalAmount : Int)
    (items : List OrderLineReq) (now : Nat) :
    RouteResult (Option OrderWithItems) × MemStorage :=
  let created := st.createOrder actor.id OrderStatus.received totalAmount now
  let st2 := addOrderItemsLoop created.2 created.1.id items
  match st2.getOrderWithItems created.1.id with
  | Except.error e => (RouteResult.err 500 e, st2)
  | Except.ok fullOrder => (RouteResult.ok fullOrder, st2)

/-- `POST /api/orders/:id/complete` for an authenticated actor: 404 when
absent, 403 when not the owner, otherwise sets the status to `completed`
with no check of the current status. -/
def completeOrderRoute (st : MemStorage) (actor : User) (orderId : Nat) :
    RouteResult Order × MemStorage :=
  match st.getOrder orderId with
  | none => (RouteResult.err 404 "Order not found", st)
  | some order =>
    if order.userId != actor.id then
      (RouteResult.err 403 "You can only update your own orders", st)
    else
      match st.updateOrderStatus orderId "completed" with
      | Except.error e => (RouteResult.err 500 e, st)
      | Except.ok (updatedOrder, st2) => (RouteResult.ok updatedOrder, st2)

/-- The 400 message of the cancel route, parameterised by the status the
order is in. -/
def cancelRejectMessage (s : OrderStatus) : String :=
  "Cannot cancel order that is " ++ statusString s ++
    ". Only orders that are received or preparing can be cancelled."

/-- `POST /api/orders/:id/cancel` for an authenticated actor: 404 when
absent, 403 when not the owner, 400 when the status is ready, completed or
cancelled, otherwise sets the status to `cancelled`. -/
def cancelOrderRoute (st : MemStorage) (actor : User) (orderId : Nat) :
    RouteResult Order × MemStorage :=
  match st.getOrder orderId with
  | none => (RouteResult.err 404 "Order not found", st)
  | some order =>
    if order.userId != actor.id then
      (RouteResult.err 403 "You can only cancel your own orders", st)
    else if order.status == OrderStatus.ready ||
        order.status == OrderStatus.completed ||
        order.status == OrderStatus.cancelled then
      (RouteResult.err 400 (cancelRejectMessage order.status), st)
    else
      match st.updateOrderStatus orderId "cancelled" with
      | Except.error e => (RouteResult.err 500 e, st)
      | Except.ok (updatedOrder, st2) => (RouteResult.ok updatedOrder, st2)

/-- `POST /api/orders/:id/reorder` for an authenticated actor: 404 when the
source order is absent, 403 when not the owner, otherwise creates a fresh
order in `received` state copying the source order's item lines. -/
def reorderRoute (st : MemStorage) (actor : User) (orderId : Nat) (now : Nat) :
    RouteResult (Option OrderWithItems) × MemStorage :=
  match st.getOrder orderId with
  | none => (RouteResult.err 404 "Order not found", st)
  | some order =>
    if order.userId != actor.id then
      (RouteResult.err 403 "You can only reorder your own orders", st)
    else
      match st.getOrderWithItems orderId with
      | Except.error e => (RouteResult.err 500 e, st)
      | Except.ok none => (RouteResult.err 500 "TypeError", st)
      | Except.ok (some original) =>
        let created := st.createOrder actor.id OrderStatus.received order.totalAmount now
        let st2 := addOrderItemsLoop created.2 created.1.id
          (original.items.map (fun iwm =>
            ⟨iwm.item.menuItemId, iwm.item.quantity, iwm.item.price⟩))
        match st2.getOrderWithItems created.1.id with
        | Except.error e => (RouteResult.err 500 e, st2)
        | Except.ok fullOrder => (RouteResult.ok fullOrder, st2)

/-- `POST /api/orders/:id/rate` for an authenticated actor: 404 when absent,
403 when not the owner, 400 when the status is not completed, 400 when the
rating is falsy or outside 1..5, otherwise stores a new rating. -/
def rateOrderRoute (st : MemStorage) (actor : User) (orderId : Nat) (rating : Int)
    (comment : Option String) (now : Nat) : RouteResult OrderRating × MemStorage :=
  match st.getOrder orderId with
  | none => (RouteResult.err 404 "Order not found", st)
  | some order =>
    if order.userId != actor.id then
      (RouteResult.err 403 "You can only rate your own orders", st)
    else if order.status != OrderStatus.completed then
      (RouteResult.err 400 "You can only rate completed orders", st)
    else if rating == 0 || decide (rating < 1) || decide (rating > 5) then
      (RouteResult.err 400 "Rating must be between 1 and 5", st)
    else
      let created := st.createOrderRating orderId actor.id rating comment now
      (RouteResult.ok created.1, created.2)

/-- `POST /api/admin/orders/:id/status`: behind the `isAdmin` middleware;
404 when the order is absent, 400 when the status string is not one of the
five enum values, otherwise updates the status with no transition check. -/
def adminUpdateOrderStatusRoute (st : MemStorage) (actor : User) (orderId : Nat)
    (status : String) : RouteResult Order × MemStorage :=
  if !actor.isAdmin then (RouteResult.err 403 "Admin access required", st)
  else
    match st.getOrder orderId with
    | none => (RouteResult.err 404 "Order not found", st)
    | some _ =>
      if (statusOfString status).isNone then (RouteResult.err 400 "Invalid status", st)
      else
        match st.updateOrderStatus orderId status with
        | Except.error e => (RouteResult.err 500 e, st)
        | Except.ok (updatedOrder, st2) => (RouteResult.ok updatedOrder, st2)

/-- `GET /api/staff/menu-items`. -/
def staffGetMenuItemsRoute (st : MemStorage) (actor : User) :
    RouteResult (List MenuItem) × MemStorage :=
  if !requireRolePasses Role.staff actor then (RouteResult.err 403 "Access denied", st)
  else if natIdIsFalsy actor.canteenId then
    (RouteResult.err 400 "Staff not assigned to a canteen", st)
  else (RouteResult.ok (st.getMenuItemsByCanteen (actor.canteenId.getD 0)), st)

/-- `POST /api/staff/menu-items`. -/
def staffCreateMenuItemRoute (st : MemStorage) (actor : User) (req : MenuItemReq) :
    RouteResult MenuItem × MemStorage :=
  if !requireRolePasses Role.staff actor then (RouteResult.err 403 "Access denied", st)
  else if natIdIsFalsy actor.canteenId then
    (RouteResult.err 400 "Staff not assigned to a canteen", st)
  else
    let created := st.createMenuItem req (actor.canteenId.getD 0)
    (RouteResult.ok created.1, created.2)

/-- `GET /api/staff/orders/active`. -/
def staffGetActiveOrdersRoute (st : MemStorage) (actor : User) :
    RouteResult (List OrderWithItems) × MemStorage :=
  if !requireRolePasses Role.staff actor then (RouteResult.err 403 "Access denied", st)
  else if natIdIsFalsy actor.canteenId then
    (RouteResult.err 400 "Staff not assigned to a canteen", st)
  else
    match st.getActiveOrdersByCanteen (actor.canteenId.getD 0) with
    | Except.error e => (RouteResult.err 500 e, st)
    | Except.ok owis => (RouteResult.ok owis, st)

/-- `GET /api/staff/orders/history`. -/
def staffGetOrderHistoryRoute (st : MemStorage) (actor : User) :
    RouteResult (List OrderWithItems) × MemStorage :=
  if !requireRolePasses Role.staff actor then (RouteResult.err 403 "Access denied", st)
  else if natIdIsFalsy actor.canteenId then
    (RouteResult.err 400 "Staff not assigned to a canteen", st)
  else
    match st.getOrderHistoryByCanteen (actor.canteenId.getD 0) with
    | Except.error e => (RouteResult.err 500 e, st)
    | Except.ok owis => (RouteResult.ok owis, st)

/-- `POST /api/staff/orders/:id/status`: the order (with items) is looked up
first (404 when absent), then the unset-canteen check (400), then the
cross-canteen gate (403 when no item of the order belongs to the staff's
canteen), then the status-string check (400), then the unconditional status
update. -/
def staffUpdateOrderStatusRoute (st : MemStorage) (actor : User) (orderId : Nat)
    (status : String) : RouteResult Order × MemStorage :=
  if !requireRolePasses Role.staff actor then (RouteResult.err 403 "Access denied", st)
  else
    match st.getOrderWithItems orderId with
    | Except.error e => (RouteResult.err 500 e, st)
    | Except.ok none => (RouteResult.err 404 "Order not found", st)
    | Except.ok (some order) =>
      if natIdIsFalsy actor.canteenId then
        (RouteResult.err 400 "Staff not assigned to a canteen", st)
      else if !order.items.any (fun iwm =>
          iwm.menuItem.canteenId == actor.canteenId.getD 0) then
        (RouteResult.err 403 "Cannot update orders for other canteens", st)
      else if (statusOfString status).isNone then
        (RouteResult.err 400 "Invalid status", st)
      else
        match st.updateOrderStatus orderId status with
        | Except.error e => (RouteResult.err 500 e, st)
        | Except.ok (updatedOrder, st2) => (RouteResult.ok updatedOrder, st2)

/-- `GET /api/staff/inventory`. -/
def staffGetInventoryRoute (st : MemStorage) (actor : User) :
    RouteResult (List InventoryItem) × MemStorage :=
  if !requireRolePasses Role.staff actor then (RouteResult.err 403 "Access denied", st)
  else if natIdIsFalsy actor.canteenId then
    (RouteResult.err 400 "Staff not assigned to a canteen", st)
  else (RouteResult.ok (st.getInventoryItemsByCanteen (actor.canteenId.getD 0)), st)

/-- `GET /api/staff/inventory/low`. -/
def staffGetLowStockRoute (st : MemStorage) (actor : User) :
    RouteResult (List InventoryItem) × MemStorage :=
  if !requireRolePasses Role.staff actor then (RouteResult.err 403 "Access denied", st)
  else if natIdIsFalsy actor.canteenId then
    (RouteResult.err 400 "Staff not assigned to a canteen", st)
  else (RouteResult.ok (st.getLowStockItems (actor.canteenId.getD 0)), st)

/-- `POST /api/staff/inventory`. -/
def staffCreateInventoryItemRoute (st : MemStorage) (actor : User)
    (req : InventoryItemReq) (now : Nat) : RouteResult InventoryItem × MemStorage :=
  if !requireRolePasses Role.staff actor then (RouteResult.err 403 "Access denied", st)
  else if natIdIsFalsy actor.canteenId then
    (RouteResult.err 400 "Staff not assigned to a canteen", st)
  else
    let created := st.createInventoryItem req (actor.canteenId.getD 0) actor.id now
    (RouteResult.ok created.1, created.2)

/-- `PATCH /api/staff/inventory/:id`: the item is looked up first (404 when
absent), then the unset-canteen check (400), then the cross-canteen gate
(403), then the merge update. -/
def staffUpdateInventoryItemRoute (st : MemStorage) (actor : User) (itemId : Nat)
    (d : InventoryUpdate) (now : Nat) : RouteResult InventoryItem × MemStorage :=
  if !requireRolePasses Role.staff actor then (RouteResult.err 403 "Access denied", st)
  else
    match st.getInventoryItem itemId with
    | none => (RouteResult.err 404 "Inventory item not found", st)
    | some item =>
      if natIdIsFalsy actor.canteenId then
        (RouteResult.err 400 "Staff not assigned to a canteen", st)
      else if item.canteenId != actor.canteenId.getD 0 then
        (RouteResult.err 403 "Cannot update inventory for other canteens", st)
      else
        match st.updateInventoryItem itemId d actor.id now with
        | Except.error e => (RouteResult.err 500 e, st)
        | Except.ok (updatedItem, st2) => (RouteResult.ok updatedItem, st2)

/-- `GET /api/staff/expenses`. -/
def staffGetExpensesRoute (st : MemStorage) (actor : User) :
    RouteResult (List Expense) × MemStorage :=
  if !requireRolePasses Role.staff actor then (RouteResult.err 403 "Access denied", st)
  else if natIdIsFalsy actor.canteenId then
    (RouteResult.err 400 "Staff not assigned to a canteen", st)
  else (RouteResult.ok (st.getExpensesByCanteen (actor.canteenId.getD 0)), st)

/-- `POST /api/staff/expenses`. -/
def staffCreateExpenseRoute (st : MemStorage) (actor : User) (req : ExpenseReq)
    (now : Nat) : RouteResult Expense × MemStorage :=
  if !requireRolePasses Role.staff actor then (RouteResult.err 403 "Access denied", st)
  else if natIdIsFalsy actor.canteenId then
    (RouteResult.err 400 "Staff not assigned to a canteen", st)
  else
    let created := st.createExpense req (actor.canteenId.getD 0) actor.id now
    (RouteResult.ok created.1, created.2)

/-- `GET /api/staff/sales`. -/
def staffGetSalesRoute (st : MemStorage) (actor : User) :
    RouteResult (List SalesReport) × MemStorage :=
  if !requireRolePasses Role.staff actor then (RouteResult.err 403 "Access denied", st)
  else if natIdIsFalsy actor.canteenId then
    (RouteResult.err 400 "Staff not assigned to a canteen", st)
  else (RouteResult.ok (st.getSalesReportsByCanteen (actor.canteenId.getD 0)), st)

/-- `POST /api/staff/sales`. -/
def staffCreateSalesReportRoute (st : MemStorage) (actor : User) (req : SalesReportReq)
    (now : Nat) : RouteResult SalesReport × MemStorage :=
  if !requireRolePasses Role.staff actor then (RouteResult.err 403 "Access denied", st)
  else if natIdIsFalsy actor.canteenId then
    (RouteResult.err 400 "Staff not assigned to a canteen", st)
  else
    let created := st.createSalesReport req (actor.canteenId.getD 0) actor.id now
    (RouteResult.ok created.1, created.2)

/-- The order items a run of `addOrderItemsLoop` inserts: one per line, ids
counting up from `startId`, all bound to `orderId`. -/
def buildOrderItems (startId orderId : Nat) : List OrderLineReq → List OrderItem
  | [] => []
  | line :: rest =>
      ⟨startId, orderId, line.menuItemId, line.quantity, line.price⟩ ::
        buildOrderItems (startId + 1) orderId rest

/-! ## Concrete fixtures

A small storage state used to instantiate the theorems: two menu items in
canteens 1 and 3, four orders of which three belong to user 7 (one in each
of the received, completed and cancelled states) and one (in `ready` state)
to user 8, one order item per order, and one inventory item in canteen 1. -/

/-- Menu item 1, canteen 1. -/
def mi1 : MenuItem := ⟨1, "Veg Sandwich", 40, "snacks", true, 1⟩

/-- Menu item 2, canteen 3. -/
def mi2 : MenuItem := ⟨2, "Cappuccino", 70, "beverages", true, 3⟩

/-- Order 1: user 7, received. -/
def ord1 : Order := ⟨1, 7, OrderStatus.received, 80, 100⟩

/-- Order 2: user 7, completed. -/
def ord2 : Order := ⟨2, 7, OrderStatus.completed, 70, 101⟩

/-- Order 3: user 7, cancelled. -/
def ord3 : Order := ⟨3, 7, OrderStatus.cancelled, 40, 102⟩

/-- Order 4: user 8, ready. -/
def ord4 : Order := ⟨4, 8, OrderStatus.ready, 70, 103⟩

/-- Item of order 1 (menu item 1, canteen 1). -/
def oi1 : OrderItem := ⟨1, 1, 1, 2, 40⟩

/-- Item of order 2 (menu item 2, canteen 3). -/
def oi2 : OrderItem := ⟨2, 2, 2, 1, 70⟩

/-- Item of order 3 (menu item 1, canteen 1). -/
def oi3 : OrderItem := ⟨3, 3, 1, 1, 40⟩

/-- Item of order 4 (menu item 2, canteen 3). -/
def oi4 : OrderItem := ⟨4, 4, 2, 1, 70⟩

/-- Inventory item in canteen 1. -/
def inv1 : InventoryItem := ⟨1, "Rice", 5, "kg", 50, 1, 10, 100, 20⟩

/-- The sample storage state. -/
def baseState : MemStorage :=
  ⟨[mi1, mi2], [ord1, ord2, ord3, ord4], [oi1, oi2, oi3, oi4], [inv1],
   [], [], [], 3, 5, 5, 2, 1, 1, 1⟩

/-- A customer. -/
def customer7 : User := ⟨7, Role.customer, false, none⟩

/-- An admin. -/
def adminUser : User := ⟨100, Role.admin, true, none⟩

/-- A staff member of canteen 1. -/
def staffC1 : User := ⟨20, Role.staff, false, some 1⟩

/-- A staff member with no canteen assigned. -/
def staffNoCanteen : User := ⟨22, Role.staff, false, none⟩

/-! ## General lemmas about the storage operations -/

theorem addOrderItemsLoop_orders (orderId : Nat) (lines : List OrderLineReq) :
    ∀ st : MemStorage, (addOrderItemsLoop st orderId lines).orders = st.orders := by
  induction lines with
  | nil => intro st; rfl
  | cons line rest ih =>
      intro st
      simp only [addOrderItemsLoop]
      rw [ih]
      rfl

theorem addOrderItemsLoop_menuItems (orderId : Nat) (lines : List OrderLineReq) :
    ∀ st : MemStorage, (addOrderItemsLoop st orderId lines).menuItems = st.menuItems := by
  induction lines with
  | nil => intro st; rfl
  | cons line rest ih =>
      intro st
      simp only [addOrderItemsLoop]
      rw [ih]
      rfl

theorem addOrderItemsLoop_orderRatings (orderId : Nat) (lines : List OrderLineReq) :
    ∀ st : MemStorage, (addOrderItemsLoop st orderId lines).orderRatings = st.orderRatings := by
  induction lines with
  | nil => intro st; rfl
  | cons line rest ih =>
      intro st
      simp only [addOrderItemsLoop]
      rw [ih]
      rfl

theorem addOrderItemsLoop_orderItems (orderId : Nat) (lines : List OrderLineReq) :
    ∀ st : MemStorage, (addOrderItemsLoop st orderId lines).orderItems
      = st.orderItems ++ buildOrderItems st.orderItemIdCounter orderId lines := by
  induction lines with
  | nil => intro st; simp [addOrderItemsLoop, buildOrderItems]
  | cons line rest ih =>
      intro st
      simp only [addOrderItemsLoop, buildOrderItems]
      rw [ih]
      simp [MemStorage.createOrderItem]

theorem buildOrderItems_filter_self (orderId : Nat) (lines : List OrderLineReq) :
    ∀ startId, (buildOrderItems startId orderId lines).filter
      (fun it => it.orderId == orderId) = buildOrderItems startId orderId lines := by
  induction lines with
  | nil => intro s; rfl
  | cons line rest ih =>
      intro s
      simp [buildOrderItems, List.filter, ih]

theorem buildOrderItems_map_item_fields (orderId : Nat) (lines : List OrderLineReq) :
    ∀ startId, (buildOrderItems startId orderId lines).map
        (fun it => (it.menuItemId, it.quantity, it.price))
      = lines.map (fun l => (l.menuItemId, l.quantity, l.price)) := by
  induction lines with
  | nil => intro s; rfl
  | cons line rest ih =>
      intro s
      simp [buildOrderItems, ih]

theorem buildOrderItems_mem_menuItemId (orderId : Nat) (lines : List OrderLineReq) :
    ∀ startId it, it ∈ buildOrderItems startId orderId lines →
      ∃ l ∈ lines, it.menuItemId = l.menuItemId := by
  induction lines with
  | nil => intro s it h; simp [buildOrderItems] at h
  | cons line rest ih =>
      intro s it h
      rw [buildOrderItems] at h
      rcases List.mem_cons.mp h with h1 | h1
      · exact ⟨line, by simp, by rw [h1]⟩
      · rcases ih _ it h1 with ⟨l, hl, he⟩
        exact ⟨l, by simp [hl], he⟩

theorem attachMenuItems_map_item (st : MemStorage) (l : List OrderItem) :
    ∀ out, attachMenuItems st l = Except.ok out → out.map (fun x => x.item) = l := by
  induction l with
  | nil =>
      intro out h
      simp only [attachMenuItems] at h
      cases h
      rfl
  | cons it rest ih =>
      intro out h
      simp only [attachMenuItems] at h
      cases hm : st.getMenuItem it.menuItemId with
      | none => rw [hm] at h; cases h
      | some m =>
        rw [hm] at h
        cases hr : attachMenuItems st rest with
        | error e => rw [hr] at h; cases h
        | ok tail =>
          rw [hr] at h
          cases h
          simp [ih tail hr]

theorem attachMenuItems_mem_getMenuItem (st : MemStorage) (l : List OrderItem) :
    ∀ out, attachMenuItems st l = Except.ok out →
      ∀ x ∈ out, st.getMenuItem x.item.menuItemId = some x.menuItem := by
  induction l with
  | nil =>
      intro out h x hx
      simp only [attachMenuItems] at h
      cases h
      simp at hx
  | cons it rest ih =>
      intro out h x hx
      simp only [attachMenuItems] at h
      cases hm : st.getMenuItem it.menuItemId with
      | none => rw [hm] at h; cases h
      | some m =>
        rw [hm] at h
        cases hr : attachMenuItems st rest with
        | error e => rw [hr] at h; cases h
        | ok tail =>
          rw [hr] at h
          cases h
          rcases List.mem_cons.mp hx with h1 | h1
          · subst h1; simpa using hm
          · exact ih tail hr x h1

theorem attachMenuItems_ok_of_isSome (st : MemStorage) (l : List OrderItem) :
    (∀ it ∈ l, (st.getMenuItem it.menuItemId).isSome = true) →
      ∃ out, attachMenuItems st l = Except.ok out := by
  induction l with
  | nil => intro _; exact ⟨[], rfl⟩
  | cons it rest ih =>
      intro h
      have hit := h it (by simp)
      cases hm : st.getMenuItem it.menuItemId with
      | none => rw [hm] at hit; simp at hit
      | some m =>
        rcases ih (fun x hx => h x (by simp [hx])) with ⟨tail, htail⟩
        refine ⟨⟨it, m⟩ :: tail, ?_⟩
        simp only [attachMenuItems]
        rw [hm, htail]

theorem find?_by_id_of_nodup (l : List Order) (q : Order)
    (hN : (l.map Order.id).Nodup) (hq : q ∈ l) :
    l.find? (fun o => o.id == q.id) = some q := by
  induction l with
  | nil => simp at hq
  | cons a rest ih =>
      rcases List.mem_cons.mp hq with h | h
      · subst h
        simp [List.find?]
      · have hA : ¬ a.id = q.id := by
          intro he
          have hqm : q.id ∈ rest.map Order.id := List.mem_map_of_mem Order.id h
          rw [← he] at hqm
          exact (List.nodup_cons.mp (by simpa using hN)).1 hqm
        have hrest := ih (List.nodup_cons.mp (by simpa using hN)).2 h
        have hbeq : (a.id == q.id) = false := by simpa using hA
        simp [List.find?, hbeq, hrest]

theorem fetchOrdersWithItems_mem (st : MemStorage) (os : List Order) :
    ∀ opts, fetchOrdersWithItems st os = Except.ok opts →
      ∀ owi, some owi ∈ opts →
        ∃ q ∈ os, st.getOrderWithItems q.id = Except.ok (some owi) := by
  induction os with
  | nil =>
      intro opts h owi hmem
      simp only [fetchOrdersWithItems] at h
      cases h
      simp at hmem
  | cons o rest ih =>
      intro opts h owi hmem
      simp only [fetchOrdersWithItems] at h
      cases ho : st.getOrderWithItems o.id with
      | error e => rw [ho] at h; cases h
      | ok x =>
        rw [ho] at h
        cases hr : fetchOrdersWithItems st rest with
        | error e => rw [hr] at h; cases h
        | ok tail =>
          rw [hr] at h
          cases h
          rcases List.mem_cons.mp hmem with h1 | h1
          · exact ⟨o, by simp, by rw [ho, ← h1]⟩
          · rcases ih tail hr owi h1 with ⟨q, hq, hqe⟩
            exact ⟨q, by simp [hq], hqe⟩

theorem getOrderWithItems_getOrder (st : MemStorage) (id : Nat) (owi : OrderWithItems)
    (h : st.getOrderWithItems id = Except.ok (some owi)) :
    st.getOrder id = some owi.order := by
  unfold MemStorage.getOrderWithItems at h
  cases hg : st.getOrder id with
  | none => rw [hg] at h; cases h
  | some o =>
    rw [hg] at h
    cases ha : attachMenuItems st (st.getOrderItems id) with
    | error e => rw [ha] at h; cases h
    | ok items =>
      rw [ha] at h
      cases h
      rfl

theorem getOrderWithItems_items (st : MemStorage) (id : Nat) (owi : OrderWithItems)
    (h : st.getOrderWithItems id = Except.ok (some owi)) :
    attachMenuItems st (st.getOrderItems id) = Except.ok owi.items := by
  unfold MemStorage.getOrderWithItems at h
  cases hg : st.getOrder id with
  | none => rw [hg] at h; cases h
  | some o =>
    rw [hg] at h
    cases ha : attachMenuItems st (st.getOrderItems id) with
    | error e => rw [ha] at h; cases h
    | ok items =>
      rw [ha] at h
      cases h
      rfl

theorem placeOrderRoute_snd (st : MemStorage) (actor : User) (total : Int)
    (items : List OrderLineReq) (now : Nat) :
    (placeOrderRoute st actor total items now).2
      = addOrderItemsLoop (st.createOrder actor.id OrderStatus.received total now).2
          (st.createOrder actor.id OrderStatus.received total now).1.id items := by
  simp only [placeOrderRoute]
  split <;> rfl

theorem placeOrderRoute_fst_ok (st : MemStorage) (actor : User) (total : Int)
    (items : List OrderLineReq) (now : Nat) (v : Option OrderWithItems)
    (hx : (addOrderItemsLoop (st.createOrder actor.id OrderStatus.received total now).2
        (st.createOrder actor.id OrderStatus.received total now).1.id items).getOrderWithItems
        (st.createOrder actor.id OrderStatus.received total now).1.id = Except.ok v) :
    (placeOrderRoute st actor total items now).1 = RouteResult.ok v := by
  simp only [placeOrderRoute]
  rw [hx]

theorem getOrderWithItems_after_create (st : MemStorage) (u : Nat) (total : Int)
    (now : Nat) (lines : List OrderLineReq)
    (hOrders : ∀ o ∈ st.orders, o.id ≠ st.orderIdCounter)
    (hItems : ∀ it ∈ st.orderItems, it.orderId ≠ st.orderIdCounter)
    (hRatings : ∀ r ∈ st.orderRatings, r.orderId ≠ st.orderIdCounter)
    (hMenu : ∀ line ∈ lines, (st.getMenuItem line.menuItemId).isSome = true) :
    ∃ out,
      (addOrderItemsLoop (st.createOrder u OrderStatus.received total now).2
          (st.createOrder u OrderStatus.received total now).1.id lines).getOrderWithItems
          (st.createOrder u OrderStatus.received total now).1.id =
        Except.ok (some ⟨⟨st.orderIdCounter, u, OrderStatus.received, total, now⟩,
          out, none⟩) ∧
      out.map (fun x => x.item)
        = buildOrderItems st.orderItemIdCounter st.orderIdCounter lines := by
  show ∃ out,
      (addOrderItemsLoop (st.createOrder u OrderStatus.received total now).2
          st.orderIdCounter lines).getOrderWithItems st.orderIdCounter =
        Except.ok (some ⟨⟨st.orderIdCounter, u, OrderStatus.received, total, now⟩,
          out, none⟩) ∧
      out.map (fun x => x.item)
        = buildOrderItems st.orderItemIdCounter st.orderIdCounter lines
  set st2 := addOrderItemsLoop (st.createOrder u OrderStatus.received total now).2
      st.orderIdCounter lines with hst2
  have hOrdersEq : st2.orders
      = st.orders ++ [⟨st.orderIdCounter, u, OrderStatus.received, total, now⟩] := by
    rw [hst2, addOrderItemsLoop_orders]
    rfl
  have hMenuEq : st2.menuItems = st.menuItems := by
    rw [hst2, addOrderItemsLoop_menuItems]
    rfl
  have hRatingsEq : st2.orderRatings = st.orderRatings := by
    rw [hst2, addOrderItemsLoop_orderRatings]
    rfl
  have hItemsEq : st2.orderItems
      = st.orderItems ++ buildOrderItems st.orderItemIdCounter st.orderIdCounter lines := by
    rw [hst2, addOrderItemsLoop_orderItems]
    rfl
  have hGetOrder : st2.getOrder st.orderIdCounter
      = some ⟨st.orderIdCounter, u, OrderStatus.received, total, now⟩ := by
    unfold MemStorage.getOrder
    rw [hOrdersEq, List.find?_append]
    have hfn : st.orders.find? (fun o => o.id == st.orderIdCounter) = none := by
      rw [List.find?_eq_none]
      intro o ho
      simpa using hOrders o ho
    rw [hfn]
    simp [List.find?]
  have hGetItems : st2.getOrderItems st.orderIdCounter
      = buildOrderItems st.orderItemIdCounter st.orderIdCounter lines := by
    unfold MemStorage.getOrderItems
    rw [hItemsEq, List.filter_append]
    have h1 : st.orderItems.filter (fun it => it.orderId == st.orderIdCounter) = [] := by
      rw [List.filter_eq_nil_iff]
      intro it hit
      simpa using hItems it hit
    rw [h1, buildOrderItems_filter_self]
    rfl
  have hGetRating : st2.getOrderRating st.orderIdCounter = none := by
    unfold MemStorage.getOrderRating
    rw [hRatingsEq, List.find?_eq_none]
    intro r hr
    simpa using hRatings r hr
  have hMenuSame : ∀ x, st2.getMenuItem x = st.getMenuItem x := by
    intro x
    unfold MemStorage.getMenuItem
    rw [hMenuEq]
  obtain ⟨out, hout⟩ := attachMenuItems_ok_of_isSome st2
      (buildOrderItems st.orderItemIdCounter st.orderIdCounter lines) (by
        intro it hit
        rcases buildOrderItems_mem_menuItemId _ _ _ it hit with ⟨l, hl, he⟩
        rw [hMenuSame, he]
        exact hMenu l hl)
  refine ⟨out, ?_, attachMenuItems_map_item st2 _ out hout⟩
  unfold MemStorage.getOrderWithItems
  rw [hGetOrder, hGetItems, hout, hGetRating]

/-! ## Claim C1 -/

/-- C1, counterexample: with order 1 in `received` status, an admin
status-update straight to `completed` succeeds and persists the new status,
instead of failing with `InvalidTransition` and leaving the status
unchanged as the claim states. -/
theorem c1_counterexample :
    adminUpdateOrderStatusRoute baseState adminUser 1 "completed" =
      (RouteResult.ok ⟨1, 7, OrderStatus.completed, 80, 100⟩,
       { baseState with
          orders := [⟨1, 7, OrderStatus.completed, 80, 100⟩, ord2, ord3, ord4] }) ∧
    ((adminUpdateOrderStatusRoute baseState adminUser 1 "completed").2).getOrder 1 =
      some ⟨1, 7, OrderStatus.completed, 80, 100⟩ := ⟨rfl, rfl⟩

/-- C1 (amended): the admin status-update route performs no transition
check at all. For every stored order and every requested target status
among the five enum values — reachable per the §4.1 table or not — the
update succeeds and persists the requested status; only a status string
outside the enum is rejected (400 "Invalid status"), leaving state
unchanged. The same unconditional update happens in
`MemStorage.updateOrderStatus`, which the staff status route also invokes
once its access gates pass, so neither staff nor admin updates are
transition-checked. -/
theorem c1_amended_no_transition_check (st : MemStorage) (actor : User) (orderId : Nat)
    (status : String) (o : Order)
    (hAdmin : actor.isAdmin = true)
    (hOrd : st.getOrder orderId = some o) :
    (∀ s : OrderStatus, statusOfString status = some s →
      adminUpdateOrderStatusRoute st actor orderId status =
        (RouteResult.ok { o with status := s },
         { st with orders := setOrderEntry st.orders orderId { o with status := s } })) ∧
    (statusOfString status = none →
      adminUpdateOrderStatusRoute st actor orderId status =
        (RouteResult.err 400 "Invalid status", st)) ∧
    (∀ s : OrderStatus, statusOfString status = some s →
      st.updateOrderStatus orderId status =
        Except.ok ({ o with status := s },
          { st with
             orders := setOrderEntry st.orders orderId { o with status := s } })) := by
  refine ⟨?_, ?_, ?_⟩
  · intro s hs
    unfold adminUpdateOrderStatusRoute MemStorage.updateOrderStatus
    rw [hOrd, hs]
    simp [hAdmin]
  · intro hs
    unfold adminUpdateOrderStatusRoute
    rw [hOrd, hs]
    simp [hAdmin]
  · intro s hs
    unfold MemStorage.updateOrderStatus
    rw [hOrd, hs]

/-- C1, witness: the amended theorem applied to order 1 (`received`) and
target status `completed`. -/
theorem c1_witness :
    adminUpdateOrderStatusRoute baseState adminUser 1 "completed" =
      (RouteResult.ok { ord1 with status := OrderStatus.completed },
       { baseState with
          orders := setOrderEntry baseState.orders 1
                      { ord1 with status := OrderStatus.completed } }) :=
  (c1_amended_no_transition_check baseState adminUser 1 "completed" ord1 rfl rfl).1
    OrderStatus.completed rfl

/-! ## Claim C2 -/

/-- C2, counterexample: an authenticated customer placing an order with an
empty items list does not get a `ValidationError` — the call succeeds (201)
and a new order in `received` status is stored, contradicting the claim
that the call fails and creates no order. -/
theorem c2_counterexample :
    placeOrderRoute baseState customer7 0 [] 200 =
      (RouteResult.ok (some ⟨⟨5, 7, OrderStatus.received, 0, 200⟩, [], none⟩),
       { baseState with
          orders := baseState.orders ++ [⟨5, 7, OrderStatus.received, 0, 200⟩],
          orderIdCounter := 6 }) := rfl

/-- C2 (amended): placeOrder validates nothing. For every submitted item
list the order is unconditionally created in `received` status with the
client-submitted total (first conjunct); an empty list yields a successful
response carrying the new order with no items (second conjunct); and any
list whose lines all reference existing menu items — available or not —
yields a successful response (third conjunct). No `ValidationError` branch
exists in the route. -/
theorem c2_amended_place_order_never_validates (st : MemStorage) (actor : User)
    (total : Int) (now : Nat)
    (hOrders : ∀ o ∈ st.orders, o.id ≠ st.orderIdCounter)
    (hItems : ∀ it ∈ st.orderItems, it.orderId ≠ st.orderIdCounter)
    (hRatings : ∀ r ∈ st.orderRatings, r.orderId ≠ st.orderIdCounter) :
    (∀ items, ((placeOrderRoute st actor total items now).2).orders
        = st.orders
            ++ [⟨st.orderIdCounter, actor.id, OrderStatus.received, total, now⟩]) ∧
    (placeOrderRoute st actor total [] now =
      (RouteResult.ok (some ⟨⟨st.orderIdCounter, actor.id, OrderStatus.received,
          total, now⟩, [], none⟩),
       { st with
          orders := st.orders
            ++ [⟨st.orderIdCounter, actor.id, OrderStatus.received, total, now⟩],
          orderIdCounter := st.orderIdCounter + 1 })) ∧
    (∀ items, (∀ line ∈ items, (st.getMenuItem line.menuItemId).isSome = true) →
      ∃ out, (placeOrderRoute st actor total items now).1
        = RouteResult.ok (some ⟨⟨st.orderIdCounter, actor.id, OrderStatus.received,
            total, now⟩, out, none⟩)) := by
  have hsplit : ∀ items, (placeOrderRoute st actor total items now).2
      = addOrderItemsLoop (st.createOrder actor.id OrderStatus.received total now).2
          (st.createOrder actor.id OrderStatus.received total now).1.id items :=
    fun items => placeOrderRoute_snd st actor total items now
  refine ⟨?_, ?_, ?_⟩
  · intro items
    rw [hsplit, addOrderItemsLoop_orders]
    rfl
  · obtain ⟨out, hro, hrm⟩ := getOrderWithItems_after_create st actor.id total now []
      hOrders hItems hRatings (by intro l hl; simp at hl)
    have hout : out = [] := by
      have : out.map (fun x => x.item) = [] := by
        rw [hrm]; rfl
      exact List.map_eq_nil_iff.mp this
    subst hout
    have h1 : (placeOrderRoute st actor total [] now).1
        = RouteResult.ok (some ⟨⟨st.orderIdCounter, actor.id, OrderStatus.received,
            total, now⟩, [], none⟩) := placeOrderRoute_fst_ok st actor total [] now _ hro
    have h2 := hsplit []
    have hpair : placeOrderRoute st actor total [] now
        = ((placeOrderRoute st actor total [] now).1,
           (placeOrderRoute st actor total [] now).2) := rfl
    rw [hpair, h1, h2]
    rfl
  · intro items hMenu
    obtain ⟨out, hro, hrm⟩ := getOrderWithItems_after_create st actor.id total now items
      hOrders hItems hRatings hMenu
    exact ⟨out, placeOrderRoute_fst_ok st actor total items now _ hro⟩

/-- C2, witness: the amended theorem instantiated at the sample state: the
empty-cart call succeeds and appends order 5, and a one-line cart referring
to the existing menu item 1 also succeeds. -/
theorem c2_witness :
    ((placeOrderRoute baseState customer7 0 [] 200).2).orders =
      baseState.orders ++ [⟨5, 7, OrderStatus.received, 0, 200⟩] ∧
    placeOrderRoute baseState customer7 0 [] 200 =
      (RouteResult.ok (some ⟨⟨5, 7, OrderStatus.received, 0, 200⟩, [], none⟩),
       { baseState with
          orders := baseState.orders ++ [⟨5, 7, OrderStatus.received, 0, 200⟩],
          orderIdCounter := 6 }) ∧
    (∃ out, (placeOrderRoute baseState customer7 80 [⟨1, 2, 40⟩] 200).1
      = RouteResult.ok (some ⟨⟨5, 7, OrderStatus.received, 80, 200⟩, out, none⟩)) :=
  ⟨(c2_amended_place_order_never_validates baseState customer7 0 200
      (by decide) (by decide) (by decide)).1 [],
   (c2_amended_place_order_never_validates baseState customer7 0 200
      (by decide) (by decide) (by decide)).2.1,
   (c2_amended_place_order_never_validates baseState customer7 80 200
      (by decide) (by decide) (by decide)).2.2 [⟨1, 2, 40⟩] (by decide)⟩

/-! ## Claim C3 -/

/-- C3, counterexample: order 1 is in `received` status and owned by user 7,
yet user 7's completeOrder call succeeds and sets the status to `completed`,
contradicting the claim that completion succeeds only from `ready`. -/
theorem c3_counterexample :
    completeOrderRoute baseState customer7 1 =
      (RouteResult.ok ⟨1, 7, OrderStatus.completed, 80, 100⟩,
       { baseState with
          orders := [⟨1, 7, OrderStatus.completed, 80, 100⟩, ord2, ord3, ord4] }) := rfl

/-- C3 (amended): completeOrder enforces ownership — completing an order
whose `userId` differs from the actor's id fails with `Forbidden` (403) and
leaves state unchanged — but performs no status check: for an existing own
order in any current status (received, preparing, ready, cancelled or
already completed) it sets the status to `completed`. -/
theorem c3_amended_complete_ignores_status (st : MemStorage) (actor : User)
    (orderId : Nat) (o : Order) (hOrd : st.getOrder orderId = some o) :
    (o.userId ≠ actor.id →
      completeOrderRoute st actor orderId =
        (RouteResult.err 403 "You can only update your own orders", st)) ∧
    (o.userId = actor.id →
      completeOrderRoute st actor orderId =
        (RouteResult.ok { o with status := OrderStatus.completed },
         { st with
            orders := setOrderEntry st.orders orderId
                        { o with status := OrderStatus.completed } })) := by
  have hs : statusOfString "completed" = some OrderStatus.completed := rfl
  constructor
  · intro h
    unfold completeOrderRoute
    rw [hOrd]
    simp [h]
  · intro h
    unfold completeOrderRoute MemStorage.updateOrderStatus
    rw [hOrd, hs]
    simp [h]

/-- C3, witness: the amended theorem applied to order 4 (owned by user 8,
rejected for user 7) and to order 1 (own order in `received` status,
completed regardless). -/
theorem c3_witness :
    completeOrderRoute baseState customer7 4 =
      (RouteResult.err 403 "You can only update your own orders", baseState) ∧
    completeOrderRoute baseState customer7 1 =
      (RouteResult.ok { ord1 with status := OrderStatus.completed },
       { baseState with
          orders := setOrderEntry baseState.orders 1
                      { ord1 with status := OrderStatus.completed } }) :=
  ⟨(c3_amended_complete_ignores_status baseState customer7 4 ord4 rfl).1 (by decide),
   (c3_amended_complete_ignores_status baseState customer7 1 ord1 rfl).2 rfl⟩

/-! ## Claim C5 -/

/-- C5 (code bug): rating the completed order 2 twice stores two ratings
with `orderId = 2` — `createOrderRating` inserts unconditionally and the
rate route never checks for an existing rating, so the at-most-one-rating
invariant of the claim does not hold in the code. -/
theorem c5_theorem_duplicate_ratings_stored :
    ((rateOrderRoute (rateOrderRoute baseState customer7 2 5 none 300).2
        customer7 2 4 none 301).2).orderRatings =
      [⟨1, 2, 7, 5, none, 300⟩, ⟨2, 2, 7, 4, none, 301⟩] ∧
    (((rateOrderRoute (rateOrderRoute baseState customer7 2 5 none 300).2
        customer7 2 4 none 301).2).orderRatings.filter
          (fun r => r.orderId == 2)).length = 2 := ⟨rfl, rfl⟩

/-! ## Claim C6 -/

/-- C6: cancelOrder enforces ownership (403 for a foreign order, state
unchanged) and succeeds exactly when the own order's status is `received`
or `preparing`; when the status is `ready`, `completed` or `cancelled` the
call is rejected with 400 and the state is unchanged. -/
theorem c6_cancel_rules (st : MemStorage) (actor : User) (orderId : Nat) (o : Order)
    (hOrd : st.getOrder orderId = some o) :
    (o.userId ≠ actor.id →
      cancelOrderRoute st actor orderId =
        (RouteResult.err 403 "You can only cancel your own orders", st)) ∧
    (o.userId = actor.id →
      (o.status = OrderStatus.ready ∨ o.status = OrderStatus.completed ∨
          o.status = OrderStatus.cancelled) →
      cancelOrderRoute st actor orderId =
        (RouteResult.err 400 (cancelRejectMessage o.status), st)) ∧
    (o.userId = actor.id →
      (o.status = OrderStatus.received ∨ o.status = OrderStatus.preparing) →
      cancelOrderRoute st actor orderId =
        (RouteResult.ok { o with status := OrderStatus.cancelled },
         { st with
            orders := setOrderEntry st.orders orderId
                        { o with status := OrderStatus.cancelled } })) := by
  have hs : statusOfString "cancelled" = some OrderStatus.cancelled := rfl
  refine ⟨?_, ?_, ?_⟩
  · intro h
    unfold cancelOrderRoute
    rw [hOrd]
    simp [h]
  · intro h hst
    unfold cancelOrderRoute
    rw [hOrd]
    rcases hst with h1 | h1 | h1 <;> simp [h, h1]
  · intro h hst
    unfold cancelOrderRoute MemStorage.updateOrderStatus
    rw [hOrd, hs]
    rcases hst with h1 | h1 <;> simp [h, h1]

/-- C6, witness: order 4 (foreign, 403), order 3 (own but cancelled, 400),
order 1 (own and received, cancelled successfully). -/
theorem c6_witness :
    cancelOrderRoute baseState customer7 4 =
      (RouteResult.err 403 "You can only cancel your own orders", baseState) ∧
    cancelOrderRoute baseState customer7 3 =
      (RouteResult.err 400 (cancelRejectMessage OrderStatus.cancelled), baseState) ∧
    cancelOrderRoute baseState customer7 1 =
      (RouteResult.ok { ord1 with status := OrderStatus.cancelled },
       { baseState with
          orders := setOrderEntry baseState.orders 1
                      { ord1 with status := OrderStatus.cancelled } }) :=
  ⟨(c6_cancel_rules baseState customer7 4 ord4 rfl).1 (by decide),
   (c6_cancel_rules baseState customer7 3 ord3 rfl).2.1 rfl (Or.inr (Or.inr rfl)),
   (c6_cancel_rules baseState customer7 1 ord1 rfl).2.2 rfl (Or.inl rfl)⟩

/-! ## Claim C8 -/

/-- C8: for an existing order, rateOrder fails with `Forbidden` (403) when
the actor is not the owner; for the owner it fails with `InvalidState`
(400, "only rate completed orders") whenever the status is not `completed`;
and for the owner of a completed order it fails with `ValidationError`
(400, rating-range message) whenever the rating is outside 1..5 — in each
case leaving the state unchanged. The checks apply in that order, matching
the route. -/
theorem c8_rate_order_error_cases (st : MemStorage) (actor : User) (orderId : Nat)
    (o : Order) (rating : Int) (comment : Option String) (now : Nat)
    (hOrd : st.getOrder orderId = some o) :
    (o.userId ≠ actor.id →
      rateOrderRoute st actor orderId rating comment now =
        (RouteResult.err 403 "You can only rate your own orders", st)) ∧
    (o.userId = actor.id → o.status ≠ OrderStatus.completed →
      rateOrderRoute st actor orderId rating comment now =
        (RouteResult.err 400 "You can only rate completed orders", st)) ∧
    (o.userId = actor.id → o.status = OrderStatus.completed →
      (rating < 1 ∨ rating > 5) →
      rateOrderRoute st actor orderId rating comment now =
        (RouteResult.err 400 "Rating must be between 1 and 5", st)) := by
  refine ⟨?_, ?_, ?_⟩
  · intro h
    unfold rateOrderRoute
    rw [hOrd]
    simp [h]
  · intro h1 h2
    unfold rateOrderRoute
    rw [hOrd]
    simp [h1, h2]
  · intro h1 h2 h3
    unfold rateOrderRoute
    rw [hOrd]
    rcases h3 with h | h <;> simp [h1, h2, h]

/-- C8, witness: rating the completed own order 2 with rating 6 yields the
`ValidationError` response, as the claim's scenario requires. -/
theorem c8_witness :
    rateOrderRoute baseState customer7 2 6 none 300 =
      (RouteResult.err 400 "Rating must be between 1 and 5", baseState) :=
  (c8_rate_order_error_cases baseState customer7 2 ord2 6 none 300 rfl).2.2 rfl rfl
    (Or.inr (by decide))

/-! ## Claim C9 -/

/-- C9: reorder fails with `NotFound` (404) when the source order is absent
and with `Forbidden` (403) when it is owned by another user, in both cases
leaving the store unchanged; for an existing own order — whatever its
status — it creates a brand-new order in `received` status whose item lines
(menuItemId, quantity, snapshot price) exactly equal the source order's. -/
theorem c9_reorder_behavior (st : MemStorage) (actor : User) (orderId : Nat) (now : Nat)
    (hOrders : ∀ o ∈ st.orders, o.id ≠ st.orderIdCounter)
    (hItems : ∀ it ∈ st.orderItems, it.orderId ≠ st.orderIdCounter)
    (hRatings : ∀ r ∈ st.orderRatings, r.orderId ≠ st.orderIdCounter) :
    (st.getOrder orderId = none →
      reorderRoute st actor orderId now = (RouteResult.err 404 "Order not found", st)) ∧
    (∀ o, st.getOrder orderId = some o → o.userId ≠ actor.id →
      reorderRoute st actor orderId now =
        (RouteResult.err 403 "You can only reorder your own orders", st)) ∧
    (∀ o owi, st.getOrder orderId = some o → o.userId = actor.id →
      st.getOrderWithItems orderId = Except.ok (some owi) →
      ∃ out,
        (reorderRoute st actor orderId now).1 =
          RouteResult.ok (some ⟨⟨st.orderIdCounter, actor.id, OrderStatus.received,
            o.totalAmount, now⟩, out, none⟩) ∧
        out.map (fun x => (x.item.menuItemId, x.item.quantity, x.item.price)) =
          owi.items.map (fun x => (x.item.menuItemId, x.item.quantity, x.item.price)) ∧
        (reorderRoute st actor orderId now).2.orders =
          st.orders ++ [⟨st.orderIdCounter, actor.id, OrderStatus.received,
            o.totalAmount, now⟩]) := by
  refine ⟨?_, ?_, ?_⟩
  · intro hN
    simp only [reorderRoute, hN]
  · intro o hOrd hOwn
    have hbne : (o.userId != actor.id) = true := by simpa using hOwn
    simp [reorderRoute, hOrd, hbne]
  · intro o owi hOrd hOwn howi
    have hbne : (o.userId != actor.id) = false := by simpa using hOwn
    have hIt := getOrderWithItems_items st orderId owi howi
    have hMenu : ∀ line ∈ owi.items.map (fun iwm =>
        (⟨iwm.item.menuItemId, iwm.item.quantity, iwm.item.price⟩ : OrderLineReq)),
        (st.getMenuItem line.menuItemId).isSome = true := by
      intro line hl
      rcases List.mem_map.mp hl with ⟨x, hx, hxe⟩
      have hfound := attachMenuItems_mem_getMenuItem st _ owi.items hIt x hx
      rw [← hxe]
      simp [hfound]
    obtain ⟨out, hro, hrm⟩ := getOrderWithItems_after_create st actor.id o.totalAmount now _
      hOrders hItems hRatings hMenu
    refine ⟨out, ?_, ?_, ?_⟩
    · simp only [reorderRoute, hOrd, hbne, Bool.false_eq_true, if_false, howi]
      rw [hro]
    · have h1 := congrArg (List.map (fun it : OrderItem =>
        (it.menuItemId, it.quantity, it.price))) hrm
      rw [List.map_map, buildOrderItems_map_item_fields, List.map_map] at h1
      simpa [Function.comp] using h1
    · have h2 : (reorderRoute st actor orderId now).2
          = addOrderItemsLoop
              (st.createOrder actor.id OrderStatus.received o.totalAmount now).2
              (st.createOrder actor.id OrderStatus.received o.totalAmount now).1.id
              (owi.items.map (fun iwm =>
                ⟨iwm.item.menuItemId, iwm.item.quantity, iwm.item.price⟩)) := by
        simp only [reorderRoute, hOrd, hbne, Bool.false_eq_true, if_false, howi]
        split <;> rfl
      rw [h2, addOrderItemsLoop_orders]
      rfl

/-- C9, witness: reorder of absent order 99 (404), of user 8's order 4 by
user 7 (403), and of own order 2: the new order 5 is appended in `received`
status. -/
theorem c9_witness :
    reorderRoute baseState customer7 99 400 =
      (RouteResult.err 404 "Order not found", baseState) ∧
    reorderRoute baseState customer7 4 400 =
      (RouteResult.err 403 "You can only reorder your own orders", baseState) ∧
    (reorderRoute baseState customer7 2 400).2.orders =
      baseState.orders ++ [⟨5, 7, OrderStatus.received, 70, 400⟩] := by
  refine ⟨(c9_reorder_behavior baseState customer7 99 400
      (by decide) (by decide) (by decide)).1 rfl,
    (c9_reorder_behavior baseState customer7 4 400
      (by decide) (by decide) (by decide)).2.1 ord4 rfl (by decide), ?_⟩
  obtain ⟨out, h1, h2, h3⟩ := (c9_reorder_behavior baseState customer7 2 400
    (by decide) (by decide) (by decide)).2.2 ord2 ⟨ord2, [⟨oi2, mi2⟩], none⟩ rfl rfl rfl
  exact h3

/-! ## Claim C10 -/

/-- C10: a cancelled order is returned by neither customer-facing listing:
`getActiveOrderForUser` only ever returns an order whose status is
received, preparing or ready (so never a cancelled one), and
`getOrderHistoryForUser` returns only orders whose status is completed; in
particular a cancelled order `o` of the user is never the active order and
never appears in the history. Order ids are assumed pairwise distinct, as
the `Map` storage guarantees. -/
theorem c10_cancelled_orders_hidden (st : MemStorage) (uid : Nat) (o : Order)
    (hNodup : (st.orders.map Order.id).Nodup)
    (ho : o ∈ st.orders) (hu : o.userId = uid)
    (hs : o.status = OrderStatus.cancelled) :
    (∀ owi, st.getActiveOrderForUser uid = Except.ok (some owi) →
        owi.order.status ≠ OrderStatus.cancelled ∧ owi.order ≠ o) ∧
    (∀ l, st.getOrderHistoryForUser uid = Except.ok l →
        ∀ owi ∈ l, owi.order.status = OrderStatus.completed ∧ owi.order ≠ o) := by
  constructor
  · intro owi h
    unfold MemStorage.getActiveOrderForUser at h
    cases hf : st.orders.find? (fun q => q.userId == uid &&
        [OrderStatus.received, OrderStatus.preparing, OrderStatus.ready].contains q.status) with
    | none => rw [hf] at h; cases h
    | some q =>
      rw [hf] at h
      have hqmem : q ∈ st.orders := List.mem_of_find?_eq_some hf
      have hqp := List.find?_some hf
      have hqnc : q.status ≠ OrderStatus.cancelled := by
        intro hc
        rw [hc] at hqp
        simp at hqp
      have horder : owi.order = q := by
        have hg := getOrderWithItems_getOrder st q.id owi h
        have hfind := find?_by_id_of_nodup st.orders q hNodup hqmem
        unfold MemStorage.getOrder at hg
        rw [hfind] at hg
        exact (Option.some.inj hg).symm
      rw [horder]
      exact ⟨hqnc, fun he => hqnc (he ▸ hs)⟩
  · intro l h owi hmem
    simp only [MemStorage.getOrderHistoryForUser] at h
    cases hfetch : fetchOrdersWithItems st
        ((st.orders.filter (fun q => q.userId == uid &&
          q.status == OrderStatus.completed)).mergeSort
          (fun a b => Nat.ble b.createdAt a.createdAt)) with
    | error e => rw [hfetch] at h; cases h
    | ok opts =>
      rw [hfetch] at h
      cases h
      have hsome : some owi ∈ opts := by
        rcases List.mem_filterMap.mp hmem with ⟨a, ha, hae⟩
        have : a = some owi := hae
        rwa [this] at ha
      rcases fetchOrdersWithItems_mem st _ opts hfetch owi hsome with ⟨q, hq, hqe⟩
      have hqfilter : q ∈ st.orders.filter (fun q2 => q2.userId == uid &&
          q2.status == OrderStatus.completed) := List.mem_mergeSort.mp hq
      have hqmem : q ∈ st.orders := List.mem_of_mem_filter hqfilter
      have hqcomp : q.status = OrderStatus.completed := by
        have hp := List.of_mem_filter hqfilter
        simp [Bool.and_eq_true] at hp
        exact hp.2
      have horder : owi.order = q := by
        have hg := getOrderWithItems_getOrder st q.id owi hqe
        have hfind := find?_by_id_of_nodup st.orders q hNodup hqmem
        unfold MemStorage.getOrder at hg
        rw [hfind] at hg
        exact (Option.some.inj hg).symm
      rw [horder]
      refine ⟨hqcomp, fun he => ?_⟩
      rw [he, hs] at hqcomp
      cases hqcomp

/-- C10, witness: for user 7 of the sample state (who has the cancelled
order 3), the active-order lookup returns order 1 (status `received`, not
order 3) and the history returns exactly the completed order 2. -/
theorem c10_witness :
    (⟨ord1, [⟨oi1, mi1⟩], none⟩ : OrderWithItems).order.status ≠ OrderStatus.cancelled ∧
    (⟨ord1, [⟨oi1, mi1⟩], none⟩ : OrderWithItems).order ≠ ord3 ∧
    (⟨ord2, [⟨oi2, mi2⟩], none⟩ : OrderWithItems).order.status = OrderStatus.completed ∧
    (⟨ord2, [⟨oi2, mi2⟩], none⟩ : OrderWithItems).order ≠ ord3 := by
  have hhist : baseState.getOrderHistoryForUser 7 =
      Except.ok [⟨ord2, [⟨oi2, mi2⟩], none⟩] := by
    simp only [MemStorage.getOrderHistoryForUser]
    have hfl : baseState.orders.filter (fun o => o.userId == 7 &&
        o.status == OrderStatus.completed) = [ord2] := by decide
    rw [hfl, List.mergeSort_singleton]
    rfl
  have h := c10_cancelled_orders_hidden baseState 7 ord3 (by decide) (by decide) rfl rfl
  have h1 := h.1 ⟨ord1, [⟨oi1, mi1⟩], none⟩ rfl
  have h2 := h.2 [⟨ord2, [⟨oi2, mi2⟩], none⟩] hhist ⟨ord2, [⟨oi2, mi2⟩], none⟩ (by simp)
  exact ⟨h1.1, h1.2, h2.1, h2.2⟩

/-! ## Claim C7 -/

/-- C7, counterexample: a staff member with no canteen assigned calling the
staff status-update route for a nonexistent order gets a 404 ("Order not
found"), not the claimed 400 — the route looks the order up before the
unset-canteen check. -/
theorem c7_counterexample :
    staffUpdateOrderStatusRoute baseState staffNoCanteen 99 "preparing" =
      (RouteResult.err 404 "Order not found", baseState) := rfl

/-- C7 (amended): a staff actor with unset canteenId is rejected on every
staff-scoped call and no call writes anything (the returned state is the
input state); every route rejects with 400, except the order status-update
and inventory-update routes, which look up the target entity first: they
return 404 when the entity is absent and 400 when it exists. -/
theorem c7_amended_null_canteen_rejections (st : MemStorage) (actor : User)
    (hRole : requireRolePasses Role.staff actor = true)
    (hC : actor.canteenId = none) :
    staffGetMenuItemsRoute st actor =
      (RouteResult.err 400 "Staff not assigned to a canteen", st) ∧
    (∀ req, staffCreateMenuItemRoute st actor req =
      (RouteResult.err 400 "Staff not assigned to a canteen", st)) ∧
    staffGetActiveOrdersRoute st actor =
      (RouteResult.err 400 "Staff not assigned to a canteen", st) ∧
    staffGetOrderHistoryRoute st actor =
      (RouteResult.err 400 "Staff not assigned to a canteen", st) ∧
    (∀ orderId status owi, st.getOrderWithItems orderId = Except.ok (some owi) →
      staffUpdateOrderStatusRoute st actor orderId status =
        (RouteResult.err 400 "Staff not assigned to a canteen", st)) ∧
    (∀ orderId status, st.getOrderWithItems orderId = Except.ok none →
      staffUpdateOrderStatusRoute st actor orderId status =
        (RouteResult.err 404 "Order not found", st)) ∧
    staffGetInventoryRoute st actor =
      (RouteResult.err 400 "Staff not assigned to a canteen", st) ∧
    staffGetLowStockRoute st actor =
      (RouteResult.err 400 "Staff not assigned to a canteen", st) ∧
    (∀ req now, staffCreateInventoryItemRoute st actor req now =
      (RouteResult.err 400 "Staff not assigned to a canteen", st)) ∧
    (∀ itemId d now item, st.getInventoryItem itemId = some item →
      staffUpdateInventoryItemRoute st actor itemId d now =
        (RouteResult.err 400 "Staff not assigned to a canteen", st)) ∧
    (∀ itemId d now, st.getInventoryItem itemId = none →
      staffUpdateInventoryItemRoute st actor itemId d now =
        (RouteResult.err 404 "Inventory item not found", st)) ∧
    staffGetExpensesRoute st actor =
      (RouteResult.err 400 "Staff not assigned to a canteen", st) ∧
    (∀ req now, staffCreateExpenseRoute st actor req now =
      (RouteResult.err 400 "Staff not assigned to a canteen", st)) ∧
    staffGetSalesRoute st actor =
      (RouteResult.err 400 "Staff not assigned to a canteen", st) ∧
    (∀ req now, staffCreateSalesReportRoute st actor req now =
      (RouteResult.err 400 "Staff not assigned to a canteen", st)) := by
  refine ⟨?_, ?_, ?_, ?_, ?_, ?_, ?_, ?_, ?_, ?_, ?_, ?_, ?_, ?_, ?_⟩
  · simp [staffGetMenuItemsRoute, hRole, hC, natIdIsFalsy]
  · intro req
    simp [staffCreateMenuItemRoute, hRole, hC, natIdIsFalsy]
  · simp [staffGetActiveOrdersRoute, hRole, hC, natIdIsFalsy]
  · simp [staffGetOrderHistoryRoute, hRole, hC, natIdIsFalsy]
  · intro orderId status owi howi
    simp [staffUpdateOrderStatusRoute, hRole, howi, hC, natIdIsFalsy]
  · intro orderId status howi
    simp [staffUpdateOrderStatusRoute, hRole, howi]
  · simp [staffGetInventoryRoute, hRole, hC, natIdIsFalsy]
  · simp [staffGetLowStockRoute, hRole, hC, natIdIsFalsy]
  · intro req now
    simp [staffCreateInventoryItemRoute, hRole, hC, natIdIsFalsy]
  · intro itemId d now item hitem
    simp [staffUpdateInventoryItemRoute, hRole, hitem, hC, natIdIsFalsy]
  · intro itemId d now hitem
    simp [staffUpdateInventoryItemRoute, hRole, hitem]
  · simp [staffGetExpensesRoute, hRole, hC, natIdIsFalsy]
  · intro req now
    simp [staffCreateExpenseRoute, hRole, hC, natIdIsFalsy]
  · simp [staffGetSalesRoute, hRole, hC, natIdIsFalsy]
  · intro req now
    simp [staffCreateSalesReportRoute, hRole, hC, natIdIsFalsy]

/-- C7, witness: the amended theorem at the sample state for the
canteen-less staff member: the menu-items route answers 400, the
status-update route answers 400 for the existing order 1 and 404 for the
absent order 99, and the inventory-update route answers 400 for the
existing item 1. -/
theorem c7_witness :
    staffGetMenuItemsRoute baseState staffNoCanteen =
      (RouteResult.err 400 "Staff not assigned to a canteen", baseState) ∧
    staffUpdateOrderStatusRoute baseState staffNoCanteen 1 "preparing" =
      (RouteResult.err 400 "Staff not assigned to a canteen", baseState) ∧
    staffUpdateOrderStatusRoute baseState staffNoCanteen 99 "preparing" =
      (RouteResult.err 404 "Order not found", baseState) ∧
    staffUpdateInventoryItemRoute baseState staffNoCanteen 1
        ⟨none, none, none, none, none, none⟩ 500 =
      (RouteResult.err 400 "Staff not assigned to a canteen", baseState) := by
  have h := c7_amended_null_canteen_rejections baseState staffNoCanteen rfl rfl
  exact ⟨h.1,
    h.2.2.2.2.1 1 "preparing" ⟨ord1, [⟨oi1, mi1⟩], none⟩ rfl,
    h.2.2.2.2.2.1 99 "preparing" rfl,
    h.2.2.2.2.2.2.2.2.2.1 1 ⟨none, none, none, none, none, none⟩ 500 inv1 rfl⟩

/-! ## Claim C4 -/

/-- C4: for a staff actor with an assigned (nonzero) canteen and an
existing order, the staff status-update fails with the cross-canteen
`Forbidden` (403) exactly when no item of the order references a menu item
of the staff's canteen; an order with at least one matching item passes the
canteen gate. -/
theorem c4_staff_canteen_gate (st : MemStorage) (actor : User) (orderId cid : Nat)
    (status : String) (owi : OrderWithItems)
    (hRole : requireRolePasses Role.staff actor = true)
    (hCid : actor.canteenId = some cid) (hNz : cid ≠ 0)
    (hOwi : st.getOrderWithItems orderId = Except.ok (some owi)) :
    (staffUpdateOrderStatusRoute st actor orderId status).1 =
        RouteResult.err 403 "Cannot update orders for other canteens"
      ↔ ∀ x ∈ owi.items, x.menuItem.canteenId ≠ cid := by
  have hFalsy : natIdIsFalsy (some cid) = false := by
    simpa [natIdIsFalsy] using hNz
  simp only [staffUpdateOrderStatusRoute, hRole, Bool.not_true, Bool.false_eq_true,
    if_false, hOwi, hCid, hFalsy, Option.getD_some]
  cases hany : owi.items.any (fun x => x.menuItem.canteenId == cid) with
  | false =>
    simp only [hany, Bool.not_false, if_true]
    constructor
    · intro _ x hx
      have := List.any_eq_false.mp hany x hx
      simpa using this
    · intro _
      trivial
  | true =>
    simp only [hany, Bool.not_true, Bool.false_eq_true, if_false]
    constructor
    · intro hL
      exfalso
      cases hio : (statusOfString status).isNone with
      | true => rw [hio] at hL; simp at hL
      | false =>
        rw [hio] at hL
        simp only [Bool.false_eq_true, if_false] at hL
        cases hup : st.updateOrderStatus orderId status with
        | error e => rw [hup] at hL; simp at hL
        | ok p =>
          rw [hup] at hL
          cases p
          simp at hL
    · intro hR
      exfalso
      rcases List.any_eq_true.mp hany with ⟨x, hx, hbx⟩
      exact hR x hx (by simpa using hbx)

/-- C4, witness: staff of canteen 1 updating order 2, whose only item is a
canteen-3 menu item, is rejected with the cross-canteen 403. -/
theorem c4_witness :
    (staffUpdateOrderStatusRoute baseState staffC1 2 "preparing").1 =
      RouteResult.err 403 "Cannot update orders for other canteens" :=
  (c4_staff_canteen_gate baseState staffC1 2 1 "preparing" ⟨ord2, [⟨oi2, mi2⟩], none⟩
    rfl rfl (by decide) rfl).mpr (by decide)

end SnackTracker
